import Mathlib

/-!
# PTZ command layer (`src/ptz/ptz.go`)

A shallow embedding of the command functions of `ptz.go`:
`MoveRelative`, `MoveContinuous`, `CreatePreset`, `ApplyPreset`, `GetPresetList`.

Each Go function becomes a Lean function returning a `Run`: the sequence of
observable effects it performed (device calls, log lines, body reads, XML
decoding, token generation) together with its outcome, which is either the
returned value or a runtime panic (nil pointer dereference).

What the functions use but `src/` does not contain is taken as a parameter:
the four coordinate-space constants (`SpaceConstants`), the device transport
(`OnvifDevice.CallMethod`), the XML decoder applied to `GetPresetsResponse`
and the token generator `util.CreateToken`.
-/

namespace Ptz

/-! ## Data model -/

/-- Contents of a byte slice (`[]byte`), kept as text. -/
abbrev Bytes := String

/-- A non-nil Go `error` value, identified by its `Error()` text. -/
structure GoError where
  msg : String
  deriving DecidableEq, Repr

/-- Rendering of `fmt.Errorf(text + "%v", code)` for an `int` argument. -/
def Errorf (text : String) (code : Int) : GoError :=
  ⟨text ++ toString code⟩

/-- The four coordinate-space URI constants referenced by `ptz.go`
(`AbsolutePanTiltSpace`, ...); they are declared outside `src/`. -/
structure SpaceConstants where
  AbsolutePanTiltSpace : String
  AbsoluteZoomSpace : String
  RelativePanTiltSpace : String
  RelativeZoomSpace : String
  deriving DecidableEq, Repr

/-- Library type `onvif.Vector2D`. -/
structure Vector2D where
  X : Float
  Y : Float
  Space : String

/-- Library type `onvif.Vector1D`. -/
structure Vector1D where
  X : Float
  Space : String

/-- Library type `onvif.PTZVector`. -/
structure PTZVector where
  PanTilt : Vector2D
  Zoom : Vector1D

/-- Library type `onvif.PTZSpeed`. -/
structure PTZSpeed where
  PanTilt : Vector2D
  Zoom : Vector1D

/-- Library type `ptz.RelativeMove` (the fields set by `MoveRelative`). -/
structure RelativeMove where
  ProfileToken : String
  Translation : PTZVector

/-- Library type `ptz.ContinuousMove`; `Timeout` is an `xsd.Duration`, a string
type whose zero value is the empty string. -/
structure ContinuousMove where
  ProfileToken : String
  Velocity : PTZSpeed
  Timeout : String := ""

/-- Library type `ptz.SetPreset`. -/
structure SetPreset where
  ProfileToken : String
  PresetName : String
  PresetToken : String

/-- Library type `ptz.GotoPreset`. -/
structure GotoPreset where
  ProfileToken : String
  PresetToken : String
  Speed : PTZSpeed

/-- Library type `ptz.GetPresets`. -/
structure GetPresets where
  ProfileToken : String

/-- The request values handed to `CallMethod` by the five commands. -/
inductive Command where
  | RelativeMove (c : RelativeMove)
  | ContinuousMove (c : ContinuousMove)
  | SetPreset (c : SetPreset)
  | GotoPreset (c : GotoPreset)
  | GetPresets (c : GetPresets)

/-- Library type `onvif.PTZPreset`: its token and name (the stored position is
not inspected by the code and is left out). -/
structure PTZPreset where
  Token : String
  Name : String

/-- The record `xml.Unmarshal` fills in `GetPresetList`; only the field
`Preset` is used by the code. The zero value has a nil slice. -/
structure GetPresetsResponse where
  Preset : List PTZPreset := []

/-- Response body stream, described by what `io.ReadAll` yields on it:
the bytes read and the read error, if any. -/
structure Body where
  data : Bytes
  err : Option GoError

/-- The fields of `http.Response` the code touches. -/
structure Response where
  StatusCode : Int
  Body : Body

/-- Constant `http.StatusOK`. -/
def StatusOK : Int := 200

/-- The device session: `CallMethod` yields a response pointer (possibly nil)
and an error (possibly nil). -/
structure OnvifDevice where
  CallMethod : Command → Option Response × Option GoError

/-- Signature of `xml.Unmarshal(data, &v)` at `v : GetPresetsResponse`:
the value left in `v` and the decode error, if any. -/
abbrev Unmarshaler := Bytes → GetPresetsResponse → GetPresetsResponse × Option GoError

/-! ## Effects -/

/-- Observable effects of a command function, in program order. -/
inductive Event where
  | callMethod (cmd : Command)
  | log (line : String)
  | readAll
  | unmarshal (data : Bytes)
  | createToken (token : String)

/-- How a Go call ends: it returns a value, or it panics. -/
inductive Outcome (α : Type) where
  | returned (value : α)
  | panicked (reason : String)

/-- A finished execution: the effects performed and the outcome. -/
structure Run (α : Type) where
  trace : List Event
  outcome : Outcome α

/-- Sequencing: a panic stops the execution, otherwise effects accumulate. -/
def Run.bind {α β : Type} (m : Run α) (f : α → Run β) : Run β :=
  match m.outcome with
  | .returned a => ⟨m.trace ++ (f a).trace, (f a).outcome⟩
  | .panicked r => ⟨m.trace, .panicked r⟩

instance : Monad Run where
  pure a := ⟨[], .returned a⟩
  bind := Run.bind

/-- Text of the runtime panic raised by a field access through a nil pointer. -/
def nilDereference : String :=
  "runtime error: invalid memory address or nil pointer dereference"

/-- Call `d.CallMethod(cmd)`. -/
def OnvifDevice.call (d : OnvifDevice) (cmd : Command) :
    Run (Option Response × Option GoError) :=
  ⟨[.callMethod cmd], .returned (d.CallMethod cmd)⟩

/-- Field access through a `*http.Response`: panics on nil. -/
def deref (p : Option Response) : Run Response :=
  match p with
  | some r => ⟨[], .returned r⟩
  | none => ⟨[], .panicked nilDereference⟩

/-- Call `log.Printf`, with the formatted line. -/
def logPrintf (line : String) : Run Unit :=
  ⟨[.log line], .returned ()⟩

/-- Call `io.ReadAll(body)`. -/
def ReadAll (b : Body) : Run (Bytes × Option GoError) :=
  ⟨[.readAll], .returned (b.data, b.err)⟩

/-- Call `xml.Unmarshal(data, &v)`. -/
def xmlUnmarshal (u : Unmarshaler) (data : Bytes) (v : GetPresetsResponse) :
    Run (GetPresetsResponse × Option GoError) :=
  ⟨[.unmarshal data], .returned (u data v)⟩

/-- Call `util.CreateToken()`: `source n` is the token issued by the call
made after `n` earlier ones. -/
def CreateToken (source : Nat → String) (issued : Nat) : Run String :=
  ⟨[.createToken (source issued)], .returned (source issued)⟩

/-! ## The command functions -/

/-- Go: `func (d *OnvifDevice) MoveRelative(profileToken string, x, y float64) error`. -/
def MoveRelative (d : OnvifDevice) (K : SpaceConstants)
    (profileToken : String) (x y : Float) : Run (Option GoError) := do
  let (onvifRes, onvifErr) ← d.call (.RelativeMove {
    ProfileToken := profileToken
    Translation := {
      PanTilt := { X := x, Y := y, Space := K.RelativePanTiltSpace }
      Zoom := { X := 0, Space := K.RelativeZoomSpace } } })
  if let some e := onvifErr then
    logPrintf ("[MOVE_REL] Move Relative Error: " ++ e.msg)
    return some e
  let res ← deref onvifRes
  if res.StatusCode ≠ StatusOK then
    return some (Errorf "move relative response error: " res.StatusCode)
  let (ptzBody, readErr) ← ReadAll res.Body
  if let some e := readErr then
    logPrintf ("[MOVE_REL] Read Response Error: " ++ e.msg)
    return some e
  logPrintf ("[MOVE_REL] PTZ body Response: " ++ ptzBody)
  return none

set_option linter.unusedVariables false in
/-- Go: `func (d *OnvifDevice) MoveContinuous(profileToken, presetToken string,
panTiltX, pantiltY, zoomX float64, isAbsolute bool, timeout time.Duration) error`.
The line `Timeout: xsd.Duration(timeout)` is commented out in the source, so the
field keeps its zero value. -/
def MoveContinuous (d : OnvifDevice) (K : SpaceConstants)
    (profileToken presetToken : String) (panTiltX pantiltY zoomX : Float)
    (isAbsolute : Bool) (timeout : Int) : Run (Option GoError) := do
  let mut panTiltSpace := K.AbsolutePanTiltSpace
  let mut zoomSpace := K.AbsoluteZoomSpace
  if !isAbsolute then
    panTiltSpace := K.RelativePanTiltSpace
    zoomSpace := K.RelativeZoomSpace
  let panTilt : Vector2D := { X := panTiltX, Y := pantiltY, Space := panTiltSpace }
  let zoom : Vector1D := { X := zoomX, Space := zoomSpace }
  let (onvifRes, onvifErr) ← d.call (.ContinuousMove {
    ProfileToken := profileToken
    Velocity := { PanTilt := panTilt, Zoom := zoom } })
  if let some e := onvifErr then
    logPrintf ("[MOVE_CONTINUOUS] Call Get Preset Method Error: " ++ e.msg)
  let res ← deref onvifRes
  if res.StatusCode ≠ StatusOK then
    return some (Errorf "move continuous response error: " res.StatusCode)
  return none

/-- Go: `func (d *OnvifDevice) CreatePreset(profileToken, presetName string) error`.
`source` and `issued` describe the token generator `util.CreateToken`. -/
def CreatePreset (d : OnvifDevice) (source : Nat → String) (issued : Nat)
    (profileToken presetName : String) : Run (Option GoError) := do
  let presetToken ← CreateToken source issued
  let (onvifRes, onvifErr) ← d.call (.SetPreset {
    ProfileToken := profileToken
    PresetName := presetName
    PresetToken := presetToken })
  if let some e := onvifErr then
    logPrintf ("[SET_PRESET] Call Get Preset Method Error: " ++ e.msg)
  let res ← deref onvifRes
  if res.StatusCode ≠ StatusOK then
    return some (Errorf "set preset response error: " res.StatusCode)
  return none

/-- Go: `func (d *OnvifDevice) ApplyPreset(profileToken, presetToken string,
panTiltX, pantiltY, zoomX float64, isAbsolute bool) error`. -/
def ApplyPreset (d : OnvifDevice) (K : SpaceConstants)
    (profileToken presetToken : String) (panTiltX pantiltY zoomX : Float)
    (isAbsolute : Bool) : Run (Option GoError) := do
  let mut panTiltSpace := K.AbsolutePanTiltSpace
  let mut zoomSpace := K.AbsoluteZoomSpace
  if !isAbsolute then
    panTiltSpace := K.RelativePanTiltSpace
    zoomSpace := K.RelativeZoomSpace
  let panTilt : Vector2D := { X := panTiltX, Y := pantiltY, Space := panTiltSpace }
  let zoom : Vector1D := { X := zoomX, Space := zoomSpace }
  let (onvifRes, onvifErr) ← d.call (.GotoPreset {
    ProfileToken := profileToken
    PresetToken := presetToken
    Speed := { PanTilt := panTilt, Zoom := zoom } })
  if let some e := onvifErr then
    logPrintf ("[SET_PRESET] Call Get Preset Method Error: " ++ e.msg)
  let res ← deref onvifRes
  if res.StatusCode ≠ StatusOK then
    return some (Errorf "set preset response error: " res.StatusCode)
  return none

/-- Go: `func (d *OnvifDevice) GetPresetList(profileToken string) ([]onvif2.PTZPreset, error)`.
`u` is `xml.Unmarshal` at `GetPresetsResponse`; a nil slice is the empty list. -/
def GetPresetList (d : OnvifDevice) (u : Unmarshaler)
    (profileToken : String) : Run (List PTZPreset × Option GoError) := do
  let (onvifRes, onvifErr) ← d.call (.GetPresets { ProfileToken := profileToken })
  if let some e := onvifErr then
    logPrintf ("[GET_PRESET_LIST] Call Get Preset Method Error: " ++ e.msg)
  let res ← deref onvifRes
  let (ptzBody, readErr) ← ReadAll res.Body
  if let some e := readErr then
    logPrintf ("[GET_PRESET_LIST] Read Response Error: " ++ e.msg)
    return ([], some e)
  let (presetList, unmarshalErr) ← xmlUnmarshal u ptzBody {}
  if let some e := unmarshalErr then
    logPrintf ("[GET_PRESET_LIST] Unmarshal Preset List Response Error: " ++ e.msg)
  return (presetList.Preset, none)

/-! ## Observations on a run -/

/-- The commands handed to `CallMethod` during a run, in order. -/
def dispatched {α : Type} (r : Run α) : List Command :=
  r.trace.filterMap fun e =>
    match e with
    | .callMethod c => some c
    | _ => none

/-- The tokens issued by the token generator during a run, in order. -/
def tokensIssued {α : Type} (r : Run α) : List String :=
  r.trace.filterMap fun e =>
    match e with
    | .createToken t => some t
    | _ => none

/-- Whether an effect reads or parses a response body. -/
def Event.touchesBody : Event → Bool
  | .readAll => true
  | .unmarshal _ => true
  | _ => false

/-- Whether a run read or parsed a response body. -/
def touchesBody {α : Type} (r : Run α) : Bool :=
  r.trace.any Event.touchesBody

/-! ## Sample values used by the concrete instances -/

/-- A device that answers every call with the response `r` and no error. -/
def respondingDevice (r : Response) : OnvifDevice :=
  ⟨fun _ => (some r, none)⟩

/-- A device whose every call fails with `e` and yields no response. -/
def failingDevice (e : GoError) : OnvifDevice :=
  ⟨fun _ => (none, some e)⟩

/-- A status-200 response whose body cannot be read: `io.ReadAll` fails on it. -/
def unreadableResponse : Response :=
  ⟨200, ⟨"", some ⟨"unexpected EOF"⟩⟩⟩

/-- A status-200 response whose body reads, without error, as `data`. -/
def okResponseWith (data : Bytes) : Response :=
  ⟨200, ⟨data, none⟩⟩

/-- The ONVIF generic spaces, as one possible value of the four constants. -/
def onvifSpaces : SpaceConstants where
  AbsolutePanTiltSpace := "http://www.onvif.org/ver10/tptz/PanTiltSpaces/PositionGenericSpace"
  AbsoluteZoomSpace := "http://www.onvif.org/ver10/tptz/ZoomSpaces/PositionGenericSpace"
  RelativePanTiltSpace := "http://www.onvif.org/ver10/tptz/PanTiltSpaces/TranslationGenericSpace"
  RelativeZoomSpace := "http://www.onvif.org/ver10/tptz/ZoomSpaces/TranslationGenericSpace"

/-- A well-formed preset-list body with the two entries of the end-to-end example. -/
def sampleBody : Bytes :=
  "<GetPresetsResponse><Preset token=\"t1\"><Name>Home</Name></Preset>" ++
    "<Preset token=\"t2\"><Name>Door</Name></Preset></GetPresetsResponse>"

/-- A decoder defined on the sample inputs only: it decodes `sampleBody` and
rejects every other input with an error, leaving the target as it was. -/
def sampleUnmarshal : Unmarshaler := fun data v =>
  if data = sampleBody then
    ({ Preset := [⟨"t1", "Home"⟩, ⟨"t2", "Door"⟩] }, none)
  else
    (v, some ⟨"XML syntax error"⟩)

/-- A token generator for the examples: the n-th token is `preset-n`. -/
def sampleTokens (n : Nat) : String :=
  "preset-" ++ toString n

/-! ## Which command each function dispatches -/

theorem MoveRelative_dispatched (d : OnvifDevice) (K : SpaceConstants)
    (profileToken : String) (x y : Float) :
    dispatched (MoveRelative d K profileToken x y) =
      [.RelativeMove {
        ProfileToken := profileToken
        Translation := {
          PanTilt := { X := x, Y := y, Space := K.RelativePanTiltSpace }
          Zoom := { X := 0, Space := K.RelativeZoomSpace } } }] := by
  rcases h : d.CallMethod (.RelativeMove {
      ProfileToken := profileToken
      Translation := {
        PanTilt := { X := x, Y := y, Space := K.RelativePanTiltSpace }
        Zoom := { X := 0, Space := K.RelativeZoomSpace } } }) with ⟨_ | res, _ | e⟩ <;>
    simp [MoveRelative, bind, Run.bind, OnvifDevice.call, pure, h, dispatched, deref,
      logPrintf, ReadAll]
  split <;> simp
  cases res.Body.err <;> simp

theorem MoveContinuous_dispatched (d : OnvifDevice) (K : SpaceConstants)
    (profileToken presetToken : String) (panTiltX pantiltY zoomX : Float)
    (isAbsolute : Bool) (timeout : Int) :
    dispatched (MoveContinuous d K profileToken presetToken panTiltX pantiltY zoomX
        isAbsolute timeout) =
      [.ContinuousMove {
        ProfileToken := profileToken
        Velocity := {
          PanTilt := { X := panTiltX, Y := pantiltY,
                       Space := if isAbsolute then K.AbsolutePanTiltSpace
                                else K.RelativePanTiltSpace }
          Zoom := { X := zoomX,
                    Space := if isAbsolute then K.AbsoluteZoomSpace
                             else K.RelativeZoomSpace } }
        Timeout := "" }] := by
  cases isAbsolute
  · rcases h : d.CallMethod (.ContinuousMove {
        ProfileToken := profileToken
        Velocity := {
          PanTilt := { X := panTiltX, Y := pantiltY, Space := K.RelativePanTiltSpace }
          Zoom := { X := zoomX, Space := K.RelativeZoomSpace } } }) with ⟨_ | res, _ | e⟩ <;>
      simp [MoveContinuous, bind, Run.bind, OnvifDevice.call, pure, h, dispatched, deref,
        logPrintf] <;> split <;> simp
  · rcases h : d.CallMethod (.ContinuousMove {
        ProfileToken := profileToken
        Velocity := {
          PanTilt := { X := panTiltX, Y := pantiltY, Space := K.AbsolutePanTiltSpace }
          Zoom := { X := zoomX, Space := K.AbsoluteZoomSpace } } }) with ⟨_ | res, _ | e⟩ <;>
      simp [MoveContinuous, bind, Run.bind, OnvifDevice.call, pure, h, dispatched, deref,
        logPrintf] <;> split <;> simp

theorem ApplyPreset_dispatched (d : OnvifDevice) (K : SpaceConstants)
    (profileToken presetToken : String) (panTiltX pantiltY zoomX : Float)
    (isAbsolute : Bool) :
    dispatched (ApplyPreset d K profileToken presetToken panTiltX pantiltY zoomX
        isAbsolute) =
      [.GotoPreset {
        ProfileToken := profileToken
        PresetToken := presetToken
        Speed := {
          PanTilt := { X := panTiltX, Y := pantiltY,
                       Space := if isAbsolute then K.AbsolutePanTiltSpace
                                else K.RelativePanTiltSpace }
          Zoom := { X := zoomX,
                    Space := if isAbsolute then K.AbsoluteZoomSpace
                             else K.RelativeZoomSpace } } }] := by
  cases isAbsolute
  · rcases h : d.CallMethod (.GotoPreset {
        ProfileToken := profileToken
        PresetToken := presetToken
        Speed := {
          PanTilt := { X := panTiltX, Y := pantiltY, Space := K.RelativePanTiltSpace }
          Zoom := { X := zoomX, Space := K.RelativeZoomSpace } } }) with ⟨_ | res, _ | e⟩ <;>
      simp [ApplyPreset, bind, Run.bind, OnvifDevice.call, pure, h, dispatched, deref,
        logPrintf] <;> split <;> simp
  · rcases h : d.CallMethod (.GotoPreset {
        ProfileToken := profileToken
        PresetToken := presetToken
        Speed := {
          PanTilt := { X := panTiltX, Y := pantiltY, Space := K.AbsolutePanTiltSpace }
          Zoom := { X := zoomX, Space := K.AbsoluteZoomSpace } } }) with ⟨_ | res, _ | e⟩ <;>
      simp [ApplyPreset, bind, Run.bind, OnvifDevice.call, pure, h, dispatched, deref,
        logPrintf] <;> split <;> simp

theorem CreatePreset_dispatched (d : OnvifDevice) (source : Nat → String) (issued : Nat)
    (profileToken presetName : String) :
    dispatched (CreatePreset d source issued profileToken presetName) =
      [.SetPreset {
        ProfileToken := profileToken
        PresetName := presetName
        PresetToken := source issued }] := by
  rcases h : d.CallMethod (.SetPreset {
      ProfileToken := profileToken
      PresetName := presetName
      PresetToken := source issued }) with ⟨_ | res, _ | e⟩ <;>
    simp [CreatePreset, CreateToken, bind, Run.bind, OnvifDevice.call, pure, h, dispatched,
      deref, logPrintf] <;> split <;> simp

theorem GetPresetList_dispatched (d : OnvifDevice) (u : Unmarshaler) (profileToken : String) :
    dispatched (GetPresetList d u profileToken) =
      [.GetPresets { ProfileToken := profileToken }] := by
  rcases h : d.CallMethod (.GetPresets { ProfileToken := profileToken }) with
    ⟨_ | res, _ | e⟩ <;>
    simp [GetPresetList, bind, Run.bind, OnvifDevice.call, pure, h, dispatched, deref,
      logPrintf, ReadAll, xmlUnmarshal]
  all_goals
    rcases hb : res.Body.err with _ | e1 <;> simp
    rcases hu : (u res.Body.data {}).2 with _ | e2 <;> simp

/-! ## Command construction -/

/-- C5: for every profile token and every `x`, `y`, the single command `MoveRelative`
hands to the device is a RelativeMove with that profile token, pan-tilt translation
`(x, y)` in `RelativePanTiltSpace` and zoom translation `0` in `RelativeZoomSpace`. -/
theorem MoveRelative_builds_relative_move (d : OnvifDevice) (K : SpaceConstants)
    (profileToken : String) (x y : Float) :
    ∃ c : RelativeMove,
      dispatched (MoveRelative d K profileToken x y) = [.RelativeMove c] ∧
      c.ProfileToken = profileToken ∧
      c.Translation.PanTilt.X = x ∧
      c.Translation.PanTilt.Y = y ∧
      c.Translation.PanTilt.Space = K.RelativePanTiltSpace ∧
      c.Translation.Zoom.X = 0 ∧
      c.Translation.Zoom.Space = K.RelativeZoomSpace :=
  ⟨_, MoveRelative_dispatched d K profileToken x y, rfl, rfl, rfl, rfl, rfl, rfl⟩

/-- C7: for every profile token and velocity components, the single command
`MoveContinuous` hands to the device is a ContinuousMove with that profile token and
velocity `(panTiltX, pantiltY)` / `zoomX` unchanged; for profile `p1`, velocity
`(0.5, -0.3, 0)` and `isAbsolute = false` it is exactly the command with that
velocity in `RelativePanTiltSpace` and `RelativeZoomSpace`. -/
theorem MoveContinuous_carries_velocity (d : OnvifDevice) (K : SpaceConstants)
    (profileToken presetToken : String) (panTiltX pantiltY zoomX : Float)
    (isAbsolute : Bool) (timeout : Int) :
    (∃ c : ContinuousMove,
      dispatched (MoveContinuous d K profileToken presetToken panTiltX pantiltY zoomX
        isAbsolute timeout) = [.ContinuousMove c] ∧
      c.ProfileToken = profileToken ∧
      c.Velocity.PanTilt.X = panTiltX ∧
      c.Velocity.PanTilt.Y = pantiltY ∧
      c.Velocity.Zoom.X = zoomX) ∧
    dispatched (MoveContinuous d K "p1" presetToken 0.5 (-0.3) 0 false timeout) =
      [.ContinuousMove {
        ProfileToken := "p1"
        Velocity := {
          PanTilt := { X := 0.5, Y := -0.3, Space := K.RelativePanTiltSpace }
          Zoom := { X := 0, Space := K.RelativeZoomSpace } } }] :=
  ⟨⟨_, MoveContinuous_dispatched d K profileToken presetToken panTiltX pantiltY zoomX
      isAbsolute timeout, rfl, rfl, rfl, rfl⟩,
   MoveContinuous_dispatched d K "p1" presetToken 0.5 (-0.3) 0 false timeout⟩

/-- C4: provided the absolute and relative constants differ, the commands built by
`MoveContinuous` and `ApplyPreset` tag pan-tilt with `AbsolutePanTiltSpace` and zoom
with `AbsoluteZoomSpace` exactly when `isAbsolute` is true, tag them with
`RelativePanTiltSpace` and `RelativeZoomSpace` otherwise, and never pair an absolute
space on one axis with a relative space on the other. -/
theorem spaces_follow_isAbsolute (d : OnvifDevice) (K : SpaceConstants)
    (profileToken presetToken : String) (panTiltX pantiltY zoomX : Float)
    (isAbsolute : Bool) (timeout : Int)
    (hPanTilt : K.AbsolutePanTiltSpace ≠ K.RelativePanTiltSpace)
    (hZoom : K.AbsoluteZoomSpace ≠ K.RelativeZoomSpace) :
    (∃ c : ContinuousMove,
      dispatched (MoveContinuous d K profileToken presetToken panTiltX pantiltY zoomX
        isAbsolute timeout) = [.ContinuousMove c] ∧
      (c.Velocity.PanTilt.Space = K.AbsolutePanTiltSpace ∧
        c.Velocity.Zoom.Space = K.AbsoluteZoomSpace ↔ isAbsolute = true) ∧
      (c.Velocity.PanTilt.Space = K.RelativePanTiltSpace ∧
        c.Velocity.Zoom.Space = K.RelativeZoomSpace ↔ isAbsolute = false) ∧
      ¬ (c.Velocity.PanTilt.Space = K.AbsolutePanTiltSpace ∧
          c.Velocity.Zoom.Space = K.RelativeZoomSpace) ∧
      ¬ (c.Velocity.PanTilt.Space = K.RelativePanTiltSpace ∧
          c.Velocity.Zoom.Space = K.AbsoluteZoomSpace)) ∧
    (∃ g : GotoPreset,
      dispatched (ApplyPreset d K profileToken presetToken panTiltX pantiltY zoomX
        isAbsolute) = [.GotoPreset g] ∧
      (g.Speed.PanTilt.Space = K.AbsolutePanTiltSpace ∧
        g.Speed.Zoom.Space = K.AbsoluteZoomSpace ↔ isAbsolute = true) ∧
      (g.Speed.PanTilt.Space = K.RelativePanTiltSpace ∧
        g.Speed.Zoom.Space = K.RelativeZoomSpace ↔ isAbsolute = false) ∧
      ¬ (g.Speed.PanTilt.Space = K.AbsolutePanTiltSpace ∧
          g.Speed.Zoom.Space = K.RelativeZoomSpace) ∧
      ¬ (g.Speed.PanTilt.Space = K.RelativePanTiltSpace ∧
          g.Speed.Zoom.Space = K.AbsoluteZoomSpace)) := by
  refine ⟨⟨_, MoveContinuous_dispatched d K profileToken presetToken panTiltX pantiltY
      zoomX isAbsolute timeout, ?_⟩,
    ⟨_, ApplyPreset_dispatched d K profileToken presetToken panTiltX pantiltY zoomX
      isAbsolute, ?_⟩⟩ <;>
    cases isAbsolute <;>
    simp [hPanTilt, hZoom, Ne.symm hPanTilt, Ne.symm hZoom]

/-- Instance of C4 at the ONVIF generic spaces, `isAbsolute = false`. -/
theorem spaces_follow_isAbsolute_witness :
    (∃ c : ContinuousMove,
      dispatched (MoveContinuous (respondingDevice ⟨200, ⟨"", none⟩⟩) onvifSpaces
        "p1" "" 0.5 (-0.3) 0 false 5000000000) = [.ContinuousMove c] ∧
      (c.Velocity.PanTilt.Space = onvifSpaces.AbsolutePanTiltSpace ∧
        c.Velocity.Zoom.Space = onvifSpaces.AbsoluteZoomSpace ↔ false = true) ∧
      (c.Velocity.PanTilt.Space = onvifSpaces.RelativePanTiltSpace ∧
        c.Velocity.Zoom.Space = onvifSpaces.RelativeZoomSpace ↔ false = false) ∧
      ¬ (c.Velocity.PanTilt.Space = onvifSpaces.AbsolutePanTiltSpace ∧
          c.Velocity.Zoom.Space = onvifSpaces.RelativeZoomSpace) ∧
      ¬ (c.Velocity.PanTilt.Space = onvifSpaces.RelativePanTiltSpace ∧
          c.Velocity.Zoom.Space = onvifSpaces.AbsoluteZoomSpace)) ∧
    (∃ g : GotoPreset,
      dispatched (ApplyPreset (respondingDevice ⟨200, ⟨"", none⟩⟩) onvifSpaces
        "p1" "" 0.5 (-0.3) 0 false) = [.GotoPreset g] ∧
      (g.Speed.PanTilt.Space = onvifSpaces.AbsolutePanTiltSpace ∧
        g.Speed.Zoom.Space = onvifSpaces.AbsoluteZoomSpace ↔ false = true) ∧
      (g.Speed.PanTilt.Space = onvifSpaces.RelativePanTiltSpace ∧
        g.Speed.Zoom.Space = onvifSpaces.RelativeZoomSpace ↔ false = false) ∧
      ¬ (g.Speed.PanTilt.Space = onvifSpaces.AbsolutePanTiltSpace ∧
          g.Speed.Zoom.Space = onvifSpaces.RelativeZoomSpace) ∧
      ¬ (g.Speed.PanTilt.Space = onvifSpaces.RelativePanTiltSpace ∧
          g.Speed.Zoom.Space = onvifSpaces.AbsoluteZoomSpace)) :=
  spaces_follow_isAbsolute (respondingDevice ⟨200, ⟨"", none⟩⟩) onvifSpaces
    "p1" "" 0.5 (-0.3) 0 false 5000000000 (by decide) (by decide)

/-- C6, as stated, fails: two calls of `MoveContinuous` that differ only in the
timeout (5 s and 10 s, in nanoseconds) hand the same command to the device. -/
theorem MoveContinuous_timeout_not_distinguished :
    ¬ (dispatched (MoveContinuous (respondingDevice ⟨200, ⟨"", none⟩⟩) onvifSpaces
          "p1" "" 0.5 (-0.3) 0 false 5000000000) ≠
       dispatched (MoveContinuous (respondingDevice ⟨200, ⟨"", none⟩⟩) onvifSpaces
          "p1" "" 0.5 (-0.3) 0 false 10000000000)) :=
  fun h => h rfl

/-- C6, amended: for every timeout passed to `MoveContinuous`, the ContinuousMove
command it hands to the device has its `Timeout` field unset (the zero value), and
the whole execution is the same for any other timeout. -/
theorem MoveContinuous_leaves_timeout_unset (d : OnvifDevice) (K : SpaceConstants)
    (profileToken presetToken : String) (panTiltX pantiltY zoomX : Float)
    (isAbsolute : Bool) (timeout : Int) :
    (∃ c : ContinuousMove,
      dispatched (MoveContinuous d K profileToken presetToken panTiltX pantiltY zoomX
        isAbsolute timeout) = [.ContinuousMove c] ∧
      c.Timeout = "") ∧
    ∀ other : Int,
      MoveContinuous d K profileToken presetToken panTiltX pantiltY zoomX isAbsolute other =
      MoveContinuous d K profileToken presetToken panTiltX pantiltY zoomX isAbsolute timeout :=
  ⟨⟨_, MoveContinuous_dispatched d K profileToken presetToken panTiltX pantiltY zoomX
      isAbsolute timeout, rfl⟩, fun _ => rfl⟩

/-- C8: for every profile token and preset name, `CreatePreset` calls the token
generator exactly once and hands the device exactly one SetPreset command, carrying
that profile token, that preset name and the token the generator returned. -/
theorem CreatePreset_uses_generated_token (d : OnvifDevice) (source : Nat → String)
    (issued : Nat) (profileToken presetName : String) :
    ∃ token : String,
      tokensIssued (CreatePreset d source issued profileToken presetName) = [token] ∧
      token = source issued ∧
      dispatched (CreatePreset d source issued profileToken presetName) =
        [.SetPreset {
          ProfileToken := profileToken
          PresetName := presetName
          PresetToken := token }] := by
  refine ⟨source issued, ?_, rfl,
    CreatePreset_dispatched d source issued profileToken presetName⟩
  rcases h : d.CallMethod (.SetPreset {
      ProfileToken := profileToken
      PresetName := presetName
      PresetToken := source issued }) with ⟨_ | res, _ | e⟩ <;>
    simp [CreatePreset, CreateToken, bind, Run.bind, OnvifDevice.call, pure, h, tokensIssued,
      deref, logPrintf] <;> split <;> simp

/-! ## Response handling -/

/-- The four status-checking commands: when the dispatch succeeded with a response
whose status is not 200, each returns the error formatted from that status and
neither reads nor parses the body. -/
theorem status_checked_before_body (d : OnvifDevice) (K : SpaceConstants)
    (source : Nat → String) (issued : Nat)
    (profileToken presetToken presetName : String) (x y zoomX : Float)
    (isAbsolute : Bool) (timeout : Int) (resp : Response)
    (hs : resp.StatusCode ≠ StatusOK) :
    ((∀ c ∈ dispatched (MoveRelative d K profileToken x y),
        d.CallMethod c = (some resp, none)) →
      (MoveRelative d K profileToken x y).outcome =
        .returned (some (Errorf "move relative response error: " resp.StatusCode)) ∧
      touchesBody (MoveRelative d K profileToken x y) = false) ∧
    ((∀ c ∈ dispatched (MoveContinuous d K profileToken presetToken x y zoomX
          isAbsolute timeout), d.CallMethod c = (some resp, none)) →
      (MoveContinuous d K profileToken presetToken x y zoomX isAbsolute timeout).outcome =
        .returned (some (Errorf "move continuous response error: " resp.StatusCode)) ∧
      touchesBody (MoveContinuous d K profileToken presetToken x y zoomX
        isAbsolute timeout) = false) ∧
    ((∀ c ∈ dispatched (CreatePreset d source issued profileToken presetName),
        d.CallMethod c = (some resp, none)) →
      (CreatePreset d source issued profileToken presetName).outcome =
        .returned (some (Errorf "set preset response error: " resp.StatusCode)) ∧
      touchesBody (CreatePreset d source issued profileToken presetName) = false) ∧
    ((∀ c ∈ dispatched (ApplyPreset d K profileToken presetToken x y zoomX isAbsolute),
        d.CallMethod c = (some resp, none)) →
      (ApplyPreset d K profileToken presetToken x y zoomX isAbsolute).outcome =
        .returned (some (Errorf "set preset response error: " resp.StatusCode)) ∧
      touchesBody (ApplyPreset d K profileToken presetToken x y zoomX isAbsolute) = false) := by
  refine ⟨fun hd => ?_, fun hd => ?_, fun hd => ?_, fun hd => ?_⟩
  · have h := hd _ (by rw [MoveRelative_dispatched]; exact List.mem_singleton_self _)
    simp [MoveRelative, bind, Run.bind, OnvifDevice.call, pure, h, deref, hs, touchesBody,
      Event.touchesBody]
  · have h := hd _ (by rw [MoveContinuous_dispatched]; exact List.mem_singleton_self _)
    cases isAbsolute <;> simp at h <;>
      simp [MoveContinuous, bind, Run.bind, OnvifDevice.call, pure, h, deref, hs, touchesBody,
      Event.touchesBody]
  · have h := hd _ (by rw [CreatePreset_dispatched]; exact List.mem_singleton_self _)
    simp [CreatePreset, CreateToken, bind, Run.bind, OnvifDevice.call, pure, h, deref, hs,
      touchesBody, Event.touchesBody]
  · have h := hd _ (by rw [ApplyPreset_dispatched]; exact List.mem_singleton_self _)
    cases isAbsolute <;> simp at h <;>
      simp [ApplyPreset, bind, Run.bind, OnvifDevice.call, pure, h, deref, hs, touchesBody,
      Event.touchesBody]

/-- Instance of `status_checked_before_body` at a device answering every call with
status 503: `MoveContinuous` returns the error formatted from 503 and leaves the
body alone. -/
theorem status_checked_before_body_witness :
    (MoveContinuous (respondingDevice ⟨503, ⟨"busy", none⟩⟩) onvifSpaces "p1" "t1" 0.1 0.2 0
        false 5000000000).outcome =
      .returned (some (Errorf "move continuous response error: " 503)) ∧
    touchesBody (MoveContinuous (respondingDevice ⟨503, ⟨"busy", none⟩⟩) onvifSpaces
        "p1" "t1" 0.1 0.2 0 false 5000000000) = false :=
  (status_checked_before_body (respondingDevice ⟨503, ⟨"busy", none⟩⟩) onvifSpaces
    sampleTokens 0 "p1" "t1" "Home" 0.1 0.2 0 false 5000000000 ⟨503, ⟨"busy", none⟩⟩
    (by decide)).2.1 (fun _ _ => rfl)

/-- C1 at its failing input: `GetPresetList` on a successful dispatch whose response
has status 500 reads the body, hands it to the decoder and returns a nil error
together with whatever list the decoder left, for every decoder. -/
theorem GetPresetList_ignores_status (u : Unmarshaler) :
    (GetPresetList (respondingDevice ⟨500, ⟨"Internal Server Error", none⟩⟩) u "p1").outcome =
      .returned ((u "Internal Server Error" {}).1.Preset, none) ∧
    touchesBody
      (GetPresetList (respondingDevice ⟨500, ⟨"Internal Server Error", none⟩⟩) u "p1") = true := by
  rcases hu : (u "Internal Server Error" {}).2 with _ | e <;>
    simp [GetPresetList, bind, Run.bind, OnvifDevice.call, pure, respondingDevice, deref,
      ReadAll, xmlUnmarshal, logPrintf, touchesBody, Event.touchesBody, hu]

/-- C2 at its failing input: on a status-200 response with the truncated body
`<Preset`, `GetPresetList` returns a nil error and the list the decoder left, for
every decoder; with a decoder that rejects that body it returns the empty list and
a nil error. -/
theorem GetPresetList_swallows_decode_error :
    (∀ u : Unmarshaler,
      (GetPresetList (respondingDevice ⟨200, ⟨"<Preset", none⟩⟩) u "p1").outcome =
        .returned ((u "<Preset" {}).1.Preset, none)) ∧
    (sampleUnmarshal "<Preset" {}).2 = some ⟨"XML syntax error"⟩ ∧
    (GetPresetList (respondingDevice ⟨200, ⟨"<Preset", none⟩⟩) sampleUnmarshal "p1").outcome =
      .returned ([], none) := by
  have key : ∀ u : Unmarshaler,
      (GetPresetList (respondingDevice ⟨200, ⟨"<Preset", none⟩⟩) u "p1").outcome =
        .returned ((u "<Preset" {}).1.Preset, none) := by
    intro u
    rcases hu : (u "<Preset" {}).2 with _ | e <;>
      simp [GetPresetList, bind, Run.bind, OnvifDevice.call, pure, respondingDevice, deref,
        ReadAll, xmlUnmarshal, logPrintf, hu]
  have hs : sampleUnmarshal "<Preset" {} = ({}, some ⟨"XML syntax error"⟩) := by
    simp [sampleUnmarshal, sampleBody]
  refine ⟨key, by rw [hs], ?_⟩
  rw [key sampleUnmarshal, hs]

/-- C3 at its failing input: when `CallMethod` yields an error and no response,
`MoveRelative` returns that error, whereas `MoveContinuous`, `CreatePreset`,
`ApplyPreset` and `GetPresetList` log it, go on to access the absent response and
panic with a nil pointer dereference instead of returning. -/
theorem call_error_not_returned (e : GoError) (K : SpaceConstants) (u : Unmarshaler)
    (source : Nat → String) (issued : Nat)
    (profileToken presetToken presetName : String) (x y zoomX : Float)
    (isAbsolute : Bool) (timeout : Int) :
    (MoveRelative (failingDevice e) K profileToken x y).outcome = .returned (some e) ∧
    (MoveContinuous (failingDevice e) K profileToken presetToken x y zoomX
      isAbsolute timeout).outcome = .panicked nilDereference ∧
    (CreatePreset (failingDevice e) source issued profileToken presetName).outcome =
      .panicked nilDereference ∧
    (ApplyPreset (failingDevice e) K profileToken presetToken x y zoomX
      isAbsolute).outcome = .panicked nilDereference ∧
    (GetPresetList (failingDevice e) u profileToken).outcome = .panicked nilDereference := by
  refine ⟨?_, ?_, ?_, ?_, ?_⟩
  · simp [MoveRelative, bind, Run.bind, OnvifDevice.call, pure, failingDevice, logPrintf]
  · cases isAbsolute <;>
      simp [MoveContinuous, bind, Run.bind, OnvifDevice.call, pure, failingDevice, logPrintf,
        deref]
  · simp [CreatePreset, CreateToken, bind, Run.bind, OnvifDevice.call, pure, failingDevice,
      logPrintf, deref]
  · cases isAbsolute <;>
      simp [ApplyPreset, bind, Run.bind, OnvifDevice.call, pure, failingDevice, logPrintf,
        deref]
  · simp [GetPresetList, bind, Run.bind, OnvifDevice.call, pure, failingDevice, logPrintf,
      deref]

/-- C9, as stated, fails: `MoveRelative` on a successful dispatch whose response has
status 200 but whose body cannot be read does not return success. -/
theorem MoveRelative_unreadable_body_fails :
    (MoveRelative (respondingDevice ⟨200, ⟨"", some ⟨"unexpected EOF"⟩⟩⟩) onvifSpaces
      "p1" 0.1 0.2).outcome ≠ .returned none := by
  simp [MoveRelative, bind, Run.bind, OnvifDevice.call, pure, respondingDevice, deref,
    ReadAll, logPrintf, StatusOK]

/-- C9, amended: when the dispatch succeeded with response `resp`, each of
`MoveContinuous`, `CreatePreset` and `ApplyPreset` returns, with a nil error exactly
when the status is 200, whatever the body; `MoveRelative` returns, with a nil error
exactly when the status is 200 and the body was read without error (the bytes read
do not matter), and when the status is 200 and reading the body fails, the error it
returns is that read error. -/
theorem success_iff_status_ok (d : OnvifDevice) (K : SpaceConstants)
    (source : Nat → String) (issued : Nat)
    (profileToken presetToken presetName : String) (x y zoomX : Float)
    (isAbsolute : Bool) (timeout : Int) (resp : Response) :
    ((∀ c ∈ dispatched (MoveRelative d K profileToken x y),
        d.CallMethod c = (some resp, none)) →
      (∃ err, (MoveRelative d K profileToken x y).outcome = .returned err ∧
        (err = none ↔ resp.StatusCode = StatusOK ∧ resp.Body.err = none)) ∧
      (∀ e, resp.StatusCode = StatusOK → resp.Body.err = some e →
        (MoveRelative d K profileToken x y).outcome = .returned (some e))) ∧
    ((∀ c ∈ dispatched (MoveContinuous d K profileToken presetToken x y zoomX
          isAbsolute timeout), d.CallMethod c = (some resp, none)) →
      ∃ err, (MoveContinuous d K profileToken presetToken x y zoomX
          isAbsolute timeout).outcome = .returned err ∧
        (err = none ↔ resp.StatusCode = StatusOK)) ∧
    ((∀ c ∈ dispatched (CreatePreset d source issued profileToken presetName),
        d.CallMethod c = (some resp, none)) →
      ∃ err, (CreatePreset d source issued profileToken presetName).outcome = .returned err ∧
        (err = none ↔ resp.StatusCode = StatusOK)) ∧
    ((∀ c ∈ dispatched (ApplyPreset d K profileToken presetToken x y zoomX isAbsolute),
        d.CallMethod c = (some resp, none)) →
      ∃ err, (ApplyPreset d K profileToken presetToken x y zoomX
          isAbsolute).outcome = .returned err ∧
        (err = none ↔ resp.StatusCode = StatusOK)) := by
  refine ⟨fun hd => ?_, fun hd => ?_, fun hd => ?_, fun hd => ?_⟩
  · have h := hd _ (by rw [MoveRelative_dispatched]; exact List.mem_singleton_self _)
    refine ⟨?_, fun e hs hb => ?_⟩
    · by_cases hs : resp.StatusCode = StatusOK
      · rcases hb : resp.Body.err with _ | e <;>
          simp [MoveRelative, bind, Run.bind, OnvifDevice.call, pure, h, deref, hs, ReadAll,
            logPrintf, hb]
      · simp [MoveRelative, bind, Run.bind, OnvifDevice.call, pure, h, deref, hs]
    · simp [MoveRelative, bind, Run.bind, OnvifDevice.call, pure, h, deref, hs, ReadAll,
        logPrintf, hb]
  · have h := hd _ (by rw [MoveContinuous_dispatched]; exact List.mem_singleton_self _)
    by_cases hs : resp.StatusCode = StatusOK <;> cases isAbsolute <;> simp at h <;>
      simp [MoveContinuous, bind, Run.bind, OnvifDevice.call, pure, h, deref, hs]
  · have h := hd _ (by rw [CreatePreset_dispatched]; exact List.mem_singleton_self _)
    by_cases hs : resp.StatusCode = StatusOK <;>
      simp [CreatePreset, CreateToken, bind, Run.bind, OnvifDevice.call, pure, h, deref, hs]
  · have h := hd _ (by rw [ApplyPreset_dispatched]; exact List.mem_singleton_self _)
    by_cases hs : resp.StatusCode = StatusOK <;> cases isAbsolute <;> simp at h <;>
      simp [ApplyPreset, bind, Run.bind, OnvifDevice.call, pure, h, deref, hs]

/-- Instance of the amended C9 at a device answering every call with a status-200
response whose body cannot be read: `MoveRelative` returns the read error, the other
three commands return with a nil error exactly when the status is 200. -/
theorem success_iff_status_ok_witness :
    ((∃ err, (MoveRelative (respondingDevice unreadableResponse) onvifSpaces
          "p1" 0.1 0.2).outcome = .returned err ∧
        (err = none ↔
          unreadableResponse.StatusCode = StatusOK ∧ unreadableResponse.Body.err = none)) ∧
      (MoveRelative (respondingDevice unreadableResponse) onvifSpaces
          "p1" 0.1 0.2).outcome = .returned (some ⟨"unexpected EOF"⟩)) ∧
    (∃ err, (MoveContinuous (respondingDevice unreadableResponse) onvifSpaces "p1" "t1"
        0.1 0.2 0 false 5000000000).outcome = .returned err ∧
      (err = none ↔ unreadableResponse.StatusCode = StatusOK)) ∧
    (∃ err, (CreatePreset (respondingDevice unreadableResponse) sampleTokens 0
        "p1" "Home").outcome = .returned err ∧
      (err = none ↔ unreadableResponse.StatusCode = StatusOK)) ∧
    (∃ err, (ApplyPreset (respondingDevice unreadableResponse) onvifSpaces "p1" "t1"
        0.1 0.2 0 false).outcome = .returned err ∧
      (err = none ↔ unreadableResponse.StatusCode = StatusOK)) :=
  have h := success_iff_status_ok (respondingDevice unreadableResponse) onvifSpaces
    sampleTokens 0 "p1" "t1" "Home" 0.1 0.2 0 false 5000000000 unreadableResponse
  ⟨⟨(h.1 (fun _ _ => rfl)).1, (h.1 (fun _ _ => rfl)).2 _ rfl rfl⟩,
    h.2.1 (fun _ _ => rfl), h.2.2.1 (fun _ _ => rfl), h.2.2.2 (fun _ _ => rfl)⟩

/-- C10: when the dispatch succeeded with a status-200 response whose body is read
without error and decodes without error to the presets `ps`, `GetPresetList` returns
a nil error and exactly `ps`, same length and same order. (The code does not consult
the status; the hypothesis restricts the statement to the case the claim is about.) -/
theorem GetPresetList_returns_decoded_presets (d : OnvifDevice) (u : Unmarshaler)
    (profileToken : String) (resp : Response) (ps : List PTZPreset)
    (hd : ∀ c ∈ dispatched (GetPresetList d u profileToken),
      d.CallMethod c = (some resp, none))
    (_hs : resp.StatusCode = StatusOK)
    (hr : resp.Body.err = none)
    (hu : u resp.Body.data {} = ({ Preset := ps }, none)) :
    (GetPresetList d u profileToken).outcome = .returned (ps, none) := by
  have h := hd _ (by rw [GetPresetList_dispatched]; exact List.mem_singleton_self _)
  simp [GetPresetList, bind, Run.bind, OnvifDevice.call, pure, h, deref, ReadAll, hr,
    xmlUnmarshal, hu]

/-- Instance of C10 at the two-entry body of the end-to-end example: the result is
exactly the records `t1`/`Home` and `t2`/`Door`, in that order, with a nil error. -/
theorem GetPresetList_returns_decoded_presets_witness :
    (GetPresetList (respondingDevice (okResponseWith sampleBody)) sampleUnmarshal "p1").outcome =
      .returned ([⟨"t1", "Home"⟩, ⟨"t2", "Door"⟩], none) :=
  GetPresetList_returns_decoded_presets (respondingDevice (okResponseWith sampleBody))
    sampleUnmarshal "p1" (okResponseWith sampleBody) [⟨"t1", "Home"⟩, ⟨"t2", "Door"⟩]
    (fun _ _ => rfl) rfl rfl (by simp [sampleUnmarshal, okResponseWith])

end Ptz
